import Mathlib

/-!
Shallow embedding of the conversational core of the e-commerce chatbot
backend (backend/app/api/chat.py and backend/app/services/openai_service.py)
together with proofs settling the frozen specification claims about it.

Modelling conventions: machine floats of the source are modelled as
rationals; Python dictionaries with a fixed key set are modelled as
structures; `None`-able values are modelled as `Option`; the ranked-search
collaborator (vector service) and the database are passed as explicit
function-valued arguments; raised exceptions are modelled with `Except`.
The regular-expression position patterns of the source are modelled as
word-level matchers over the space-split lowercased message, preserving the
pattern order, the first-match-per-pattern rule, the ordinal map and the
bounds checks of the source.
-/

namespace EcomChat

/-- Python `a or b` on `None`-able values (`None` is falsy). -/
def pyOr {α : Type} (a b : Option α) : Option α :=
  match a with
  | Option.some x => Option.some x
  | Option.none => b

/-- The value space accepted by `safe_float_convert`
(`Union[str, int, float, None]`); floats are modelled as rationals. -/
inductive PyVal where
  | vNone : PyVal
  | vStr : String → PyVal
  | vInt : Int → PyVal
  | vFloat : Rat → PyVal
deriving DecidableEq

/-- Characters kept by the cleaning step `re.sub(r'[^\d.,]', '', value)` of
`safe_float_convert`. -/
def isPriceChar (c : Char) : Bool := c.isDigit || c == '.' || c == ','

/-- Numeric value of a list of decimal digit characters. -/
def digitsVal (cs : List Char) : Nat :=
  cs.foldl (fun a c => a * 10 + (c.toNat - 48)) 0

/-- Split a character list at its first dot, when one is present. -/
def splitAtDot : List Char → List Char × Option (List Char)
  | [] => ([], Option.none)
  | c :: cs =>
    if c = '.' then ([], Option.some cs)
    else
      let r := splitAtDot cs
      (c :: r.1, r.2)

/-- Nonempty and all decimal digits. -/
def digitsNonempty (cs : List Char) : Bool :=
  !cs.isEmpty && cs.all (fun c => c.isDigit)

/-- Python `float(s)` restricted to strings built of digits and dots (the
only strings reaching it inside `safe_float_convert` after cleaning and
comma replacement): it succeeds iff the string has at most one dot and at
least one digit, and fails (raises `ValueError`) otherwise. -/
def pyFloatParse (cs : List Char) : Option Rat :=
  match splitAtDot cs with
  | (ip, Option.none) =>
    if digitsNonempty ip then Option.some ((digitsVal ip : Nat) : Rat) else Option.none
  | (ip, Option.some fp) =>
    if fp.contains '.' then Option.none
    else if !(ip.isEmpty && fp.isEmpty) && (ip ++ fp).all (fun c => c.isDigit) then
      Option.some (((digitsVal ip : Nat) : Rat) + ((digitsVal fp : Nat) : Rat) / ((10 : Rat) ^ fp.length))
    else Option.none

/-- `safe_float_convert` of backend/app/api/chat.py: coerce a price value to
float; strings are cleaned of currency symbols, a comma is replaced by a
dot, and any conversion failure yields `0.0`. -/
def safe_float_convert (value : PyVal) : Rat :=
  match value with
  | PyVal.vNone => 0
  | PyVal.vStr s =>
    let cleaned := s.data.filter isPriceChar
    if cleaned.isEmpty then 0
    else
      let replaced := cleaned.map (fun c => if c = ',' then '.' else c)
      match pyFloatParse replaced with
      | Option.some q => q
      | Option.none => 0
  | PyVal.vInt n => (n : Rat)
  | PyVal.vFloat q => q

/-- Python `str.lower()` (ASCII case folding suffices for the modelled
messages). -/
def lowerStr (s : String) : String := String.mk (s.data.map Char.toLower)

/-- Whether the first list is an initial segment of the second. -/
def charsPrefixOf : List Char → List Char → Bool
  | [], _ => true
  | _ :: _, [] => false
  | a :: as, b :: bs => a == b && charsPrefixOf as bs

/-- Whether `needle` occurs contiguously inside the second list. -/
def charsInfixOf (needle : List Char) : List Char → Bool
  | [] => charsPrefixOf needle []
  | c :: cs => charsPrefixOf needle (c :: cs) || charsInfixOf needle cs

/-- Python substring test `needle in hay`. -/
def strContains (hay needle : String) : Bool := charsInfixOf needle.data hay.data

/-- Helper for `splitWords`; the accumulator holds the current word
reversed. -/
def splitWordsAux : List Char → List Char → List String
  | [], acc => if acc.isEmpty then [] else [String.mk acc.reverse]
  | c :: cs, acc =>
    if c = ' ' then
      if acc.isEmpty then splitWordsAux cs []
      else String.mk acc.reverse :: splitWordsAux cs []
    else splitWordsAux cs (c :: acc)

/-- Python `str.split()` on runs of spaces. -/
def splitWords (s : String) : List String := splitWordsAux s.data []

/-- Product snapshot as passed around by chat.py (the fields the modelled
operations inspect; prices keep the raw value fed to
`safe_float_convert`). -/
structure ProductD where
  shopify_id : String
  title : String
  price : PyVal
  vendor : String
deriving DecidableEq

/-- The filter record assembled from `user_preferences` (`price_filter`
with its `max` bound, and `brand_filter`); an empty record models the empty
Python dict. -/
structure Filters where
  price_max : Option Rat
  brand : Option String
deriving DecidableEq

/-- `apply_product_filters` of backend/app/api/chat.py: price ceiling first
(using `safe_float_convert` on the price), then case-insensitive vendor
substring match; an empty filter record returns the list unchanged. -/
def apply_product_filters (products : List ProductD) (filters : Filters) : List ProductD :=
  if filters.price_max.isNone ∧ filters.brand.isNone then products
  else
    let filtered :=
      match filters.price_max with
      | Option.some m => products.filter (fun p => decide (safe_float_convert p.price ≤ m))
      | Option.none => products
    match filters.brand with
    | Option.some b => filtered.filter (fun p => strContains (lowerStr p.vendor) (lowerStr b))
    | Option.none => filtered

/-! Positional-reference resolution inside `detect_product_specific_question`
(backend/app/api/chat.py, the `position_patterns` loop and the
selected/context fallbacks).  The three regular expressions are modelled as
word-level matchers: each returns the position text of its first match, the
loop keeps the pattern order, and only an in-range position (1-indexed,
nonzero, within `recent_search_products`) sets the target and stops. -/

/-- The `ordinal_map` literal of the source. -/
def ordinal_map : List (String × Nat) :=
  [("first", 1), ("second", 2), ("third", 3), ("fourth", 4), ("fifth", 5),
   ("1st", 1), ("2nd", 2), ("3rd", 3), ("4th", 4), ("5th", 5)]

/-- Look a position word up in `ordinal_map`. -/
def lookupOrdinal (t : String) : Option Nat :=
  (ordinal_map.find? (fun e => e.1 == t)).map (fun e => e.2)

/-- Whether a word matches the alternation
`first|second|third|fourth|fifth|\d+(st|nd|rd|th)?` of the position
patterns. -/
def isPositionToken (t : String) : Bool :=
  (lookupOrdinal t).isSome ||
    (let ds := t.data.takeWhile (fun c => c.isDigit)
     let rest := t.data.dropWhile (fun c => c.isDigit)
     !ds.isEmpty &&
       (rest.isEmpty || rest == ['s', 't'] || rest == ['n', 'd'] ||
        rest == ['r', 'd'] || rest == ['t', 'h']))

/-- The position-text conversion of the source loop body: ordinal words map
through `ordinal_map`, all-digit texts through `int`, anything else (such as
`7th`) yields no position. -/
def parsePositionText (t : String) : Option Nat :=
  match lookupOrdinal t with
  | Option.some n => Option.some n
  | Option.none =>
    if digitsNonempty t.data then Option.some (digitsVal t.data) else Option.none

/-- Second words accepted by the first position pattern
(`... (?:product|one|item)`). -/
def positionSeconds1 : List String := ["product", "one", "item"]

/-- Second words accepted by the third position pattern (`... (?:one|item)`). -/
def positionSeconds3 : List String := ["one", "item"]

/-- First position pattern: a position token immediately followed by
`product`, `one` or `item`; the first textual match decides. -/
def pattern1Pos : List String → Option Nat
  | a :: b :: rest =>
    if isPositionToken a && positionSeconds1.contains b then parsePositionText a
    else pattern1Pos (b :: rest)
  | _ => Option.none

/-- Second position pattern `product\s+(?:#|number\s+)?(\d+)`: the word
`product` followed by a number, a `#`-prefixed number, or `number` and a
number; scanning continues past non-matching occurrences of `product`. -/
def pattern2Pos : List String → Option Nat
  | [] => Option.none
  | w :: rest =>
    if w == "product" then
      match rest with
      | [] => Option.none
      | t :: rest2 =>
        if t == "number" then
          match rest2 with
          | u :: _ =>
            if digitsNonempty u.data then Option.some (digitsVal u.data)
            else pattern2Pos rest
          | [] => pattern2Pos rest
        else if (match t.data with
                 | '#' :: ds => digitsNonempty ds
                 | _ => false) then
          Option.some (digitsVal (t.data.drop 1))
        else if digitsNonempty t.data then Option.some (digitsVal t.data)
        else pattern2Pos rest
    else pattern2Pos rest

/-- Third position pattern: a position token immediately followed by `one`
or `item`. -/
def pattern3Pos : List String → Option Nat
  | a :: b :: rest =>
    if isPositionToken a && positionSeconds3.contains b then parsePositionText a
    else pattern3Pos (b :: rest)
  | _ => Option.none

/-- The guarded assignment of the source loop body: a parsed position sets
the target only when it is nonzero, `recent_products` is nonempty and the
list has at least that many entries (`len(recent_products) >= position`),
taking the 1-indexed entry. -/
def attemptPosition (pos : Option Nat) (recent : List ProductD) : Option ProductD :=
  match pos with
  | Option.some n =>
    if (n != 0) && !recent.isEmpty && decide (n ≤ recent.length) then
      recent.get? (n - 1)
    else Option.none
  | Option.none => Option.none

/-- The `position_patterns` loop of `detect_product_specific_question`:
patterns are tried in order and the first in-range position wins. -/
def findPositionalTarget (message : String) (recent : List ProductD) : Option ProductD :=
  let ws := splitWords (lowerStr message)
  match attemptPosition (pattern1Pos ws) recent with
  | Option.some p => Option.some p
  | Option.none =>
    match attemptPosition (pattern2Pos ws) recent with
    | Option.some p => Option.some p
    | Option.none => attemptPosition (pattern3Pos ws) recent

/-- The target-resolution outcome of `detect_product_specific_question`
(the `target_product` and `has_product_reference` fields of its result
dictionary). -/
structure RefResult where
  target_product : Option ProductD
  has_product_reference : Bool
deriving DecidableEq

/-- Target resolution of `detect_product_specific_question`
(backend/app/api/chat.py): positional reference first, then the explicitly
selected product, then the context product; only the context branch runs
the title-word-overlap and `for <title>` checks, while a positional or
selected target always sets `has_product_reference`. -/
def detect_product_reference (message : String) (context_product : Option ProductD)
    (recent_products : List ProductD) (selected_product : Option ProductD) : RefResult :=
  let message_lower := lowerStr message
  match findPositionalTarget message recent_products with
  | Option.some p => { target_product := Option.some p, has_product_reference := true }
  | Option.none =>
    match selected_product with
    | Option.some s => { target_product := Option.some s, has_product_reference := true }
    | Option.none =>
      match context_product with
      | Option.some c =>
        let title_l := lowerStr c.title
        let productWords := splitWords title_l
        let anyWordHit := productWords.any (fun w => decide (3 < w.length) && strContains message_lower w)
        let forHit := strContains message_lower ("for " ++ title_l)
        let sigWords := productWords.filter (fun w => decide (3 < w.length))
        let halfHit := !sigWords.isEmpty &&
          decide (sigWords.length ≤ 2 * sigWords.countP (fun w => strContains message_lower w))
        { target_product := Option.some c,
          has_product_reference := anyWordHit || forHit || halfHit }
      | Option.none => { target_product := Option.none, has_product_reference := false }

/-! Search orchestration: the new-search / pagination sub-branch of the
`PRODUCT_SEARCH` intent in `chat_endpoint` (backend/app/api/chat.py).  The
ranked-search collaborator together with the database enrichment of its
result identifiers is modelled as one oracle function from query and limit
to formatted product snapshots. -/

/-- Python `enumerate(exact_matches, 1)` materialised into the
`numbered_products` association list. -/
def numberFrom : Nat → List ProductD → List (Nat × ProductD)
  | _, [] => []
  | k, p :: ps => (k, p) :: numberFrom (k + 1) ps

/-- The `numbered_products` rebuild of `chat_endpoint`: 1-indexed mapping
over the current page of exact matches. -/
def rebuildNumbered (exact_matches : List ProductD) : List (Nat × ProductD) :=
  numberFrom 1 exact_matches

/-- Lookup by displayed number in the `numbered_products` mapping. -/
def lookupNumbered (m : List (Nat × ProductD)) (n : Nat) : Option ProductD :=
  (m.find? (fun e => e.1 == n)).map (fun e => e.2)

/-- The session-state fields of `session_context[session_id]` that the
search sub-branch reads or writes. -/
structure SearchSession where
  cached_search_query : String
  cached_search_results : List ProductD
  numbered_products : List (Nat × ProductD)
  recent_search_products : List ProductD
  context_product : Option ProductD
  last_shown_products : List ProductD
deriving DecidableEq

/-- The per-turn outputs of the search sub-branch; `search_calls` records
every `vector_service.search_products` invocation of the turn as a
query-limit pair. -/
structure SearchOutcome where
  response_text : String
  exact_matches : List ProductD
  suggestions : List ProductD
  show_exact_slider : Bool
  show_suggestions_slider : Bool
  total_exact_matches : Nat
  has_more_exact : Bool
  search_calls : List (String × Nat)
deriving DecidableEq

/-- `user_preferences.get('max_results') or 50`: Python `or` treats both
`None` and `0` as absent. -/
def defaultMaxResults (mr : Option Nat) : Nat :=
  match mr with
  | Option.some n => if n = 0 then 50 else n
  | Option.none => 50

/-- `search_limit = min(max_results * 2, 100)` of the new-search branch. -/
def searchLimit (mr : Option Nat) : Nat := min (defaultMaxResults mr * 2) 100

/-- The pagination test of `chat_endpoint`: a nonempty cached query and
cached result set, a case-insensitive query match, and a requested page
greater than one. -/
def isPaginationRequest (st : SearchSession) (search_query : String) (page_number : Nat) : Bool :=
  st.cached_search_query != "" && !st.cached_search_results.isEmpty &&
    lowerStr search_query == lowerStr st.cached_search_query && decide (1 < page_number)

/-- The no-results `else` branch of the search sub-branch: an apologetic
message, no exact matches, and up to five suggestions from a fresh
`popular products` ranked search; the session state is left untouched. -/
def noResultsOutcome (st : SearchSession) (vector : String → Nat → List ProductD)
    (prior_calls : List (String × Nat)) : SearchOutcome × SearchSession :=
  let general_results := vector "popular products" 10
  let sugg := general_results.take 5
  ({ response_text := "I couldn\x27t find any products matching your search. Let me show you some other products you might like:",
     exact_matches := [],
     suggestions := sugg,
     show_exact_slider := false,
     show_suggestions_slider := !sugg.isEmpty,
     total_exact_matches := 0,
     has_more_exact := false,
     search_calls := prior_calls ++ [("popular products", 10)] },
   st)

/-- Response-composition data of the main processing block (the branch on
requested count, zero, one or many matches). -/
def mainResponse (max_results : Option Nat) (exact_matches suggestions : List ProductD)
    (total_exact : Nat) (filters : Filters) (has_more0 : Bool) : String × Bool × Bool × Bool :=
  if max_results == Option.some 1 then
    match exact_matches with
    | p :: _ =>
      ("Here\x27s the product that matches your search: **" ++ p.title ++ "**",
       true, false, has_more0)
    | [] =>
      ("I couldn\x27t find exactly what you\x27re looking for, but here are some related suggestions:",
       false, !suggestions.isEmpty, has_more0)
  else if total_exact = 0 then
    ("I couldn\x27t find exact matches for your search, but here are some related suggestions you might like:",
     false, !suggestions.isEmpty, has_more0)
  else if total_exact = 1 then
    (match exact_matches with
     | p :: _ => "I found 1 product that matches your search: **" ++ p.title ++ "**"
     | [] => "I found 1 product that matches your search: **",
     true, !suggestions.isEmpty, has_more0)
  else
    let filter_parts :=
      (match filters.price_max with
       | Option.some m => ["under $" ++ toString m]
       | Option.none => []) ++
      (match filters.brand with
       | Option.some b => ["from " ++ b]
       | Option.none => [])
    let filter_text :=
      match filter_parts with
      | [] => ""
      | f :: fs => " (" ++ fs.foldl (fun a s => a ++ ", " ++ s) f ++ ")"
    if exact_matches.length < total_exact then
      ("I found " ++ toString total_exact ++ " products" ++ filter_text ++
         "! Here are the first " ++ toString exact_matches.length ++ " matches.",
       true, !suggestions.isEmpty, true)
    else
      ("I found " ++ toString total_exact ++ " products" ++ filter_text ++
         " that match your search.",
       true, !suggestions.isEmpty, has_more0)

/-- The new-search / pagination sub-branch of the `PRODUCT_SEARCH` intent in
`chat_endpoint` (reached when neither a similar-to nor a position preference
matched).  When `is_pagination_request` holds, the source assigns
`all_products = cached_results` but the whole processing block is guarded by
`not is_pagination_request and product_results`, so the turn falls through
to the no-results branch; otherwise a fresh ranked search feeds the block,
which filters, caches, paginates with page size 5, rebuilds
`numbered_products` and `recent_search_products`, derives suggestions and
composes the response. -/
def product_search_turn (st : SearchSession) (vector : String → Nat → List ProductD)
    (search_query : String) (page_number : Nat) (max_results : Option Nat)
    (filters : Filters) : SearchOutcome × SearchSession :=
  if isPaginationRequest st search_query page_number then
    noResultsOutcome st vector []
  else
    let limit := searchLimit max_results
    let product_results := vector search_query limit
    if product_results.isEmpty then
      noResultsOutcome st vector [(search_query, limit)]
    else
      let filtered_products := apply_product_filters product_results filters
      let total_exact := filtered_products.length
      let st1 := { st with
        cached_search_results := filtered_products,
        cached_search_query := search_query }
      let current_page := if page_number = 0 then 1 else page_number
      let start_idx := (current_page - 1) * 5
      let exact_matches := (filtered_products.drop start_idx).take 5
      let has_more0 := decide (start_idx + 5 < filtered_products.length)
      let suggestion_query := "related to " ++ search_query ++ " alternative similar"
      let suggestion_results := vector suggestion_query 20
      let exact_ids := exact_matches.map (fun p => p.shopify_id)
      let suggestion_products := suggestion_results.filter (fun p => !exact_ids.contains p.shopify_id)
      let suggestions := (apply_product_filters suggestion_products filters).take 5
      let st2 := { st1 with
        numbered_products := rebuildNumbered exact_matches,
        recent_search_products := exact_matches,
        last_shown_products := exact_matches,
        context_product :=
          match exact_matches with
          | [] => st1.context_product
          | p :: _ => Option.some p }
      let r := mainResponse max_results exact_matches suggestions total_exact filters has_more0
      ({ response_text := r.1,
         exact_matches := exact_matches,
         suggestions := suggestions,
         show_exact_slider := r.2.1,
         show_suggestions_slider := r.2.2.1,
         total_exact_matches := total_exact,
         has_more_exact := r.2.2.2,
         search_calls := [(search_query, limit), (suggestion_query, 20)] },
       st2)

/-! Conversation history bookkeeping of `chat_endpoint`: the user message is
appended and the history truncated to its last ten entries, then after the
turn is handled the assistant message is appended without a further
truncation. -/

/-- One entry of `conversation_history`. -/
structure HistEntry where
  role : String
  text : String
deriving DecidableEq

/-- The truncation `history[-10:]` applied when the history exceeds ten
entries (oldest dropped first). -/
def trimHistory (h : List HistEntry) : List HistEntry :=
  if 10 < h.length then h.drop (h.length - 10) else h

/-- One full turn of history bookkeeping: append the user entry, truncate,
handle the turn, append the assistant entry. -/
def historyAfterTurn (h : List HistEntry) (u b : HistEntry) : List HistEntry :=
  trimHistory (h ++ [u]) ++ [b]

/-- A fixed user entry for iterated runs. -/
def userEntry : HistEntry := { role := "user", text := "hi" }

/-- A fixed assistant entry for iterated runs. -/
def assistantEntry : HistEntry := { role := "assistant", text := "hello" }

/-- The history after `n` processed turns starting from an empty session. -/
def runTurns : Nat → List HistEntry
  | 0 => []
  | n + 1 => historyAfterTurn (runTurns n) userEntry assistantEntry

/-! The `ORDER_INQUIRY` branch of `chat_endpoint`: a two-slot state machine
over `pending_order_email` and `pending_order_number`. -/

/-- The two pending slots persisted in session state across turns. -/
structure OrderSlots where
  pending_order_email : Option String
  pending_order_number : Option String
deriving DecidableEq

/-- An order snapshot (the fields the lookup match is keyed on). -/
structure OrderInfo where
  order_number : Nat
  email : String
deriving DecidableEq

/-- The user-visible outcome of one order-inquiry turn. -/
inductive OrderOutcome where
  | promptBoth : OrderOutcome
  | promptNumber : String → OrderOutcome
  | promptEmail : String → OrderOutcome
  | invalidNumber : String → OrderOutcome
  | notFound : String → String → OrderOutcome
  | found : OrderInfo → OrderOutcome
deriving DecidableEq

/-- Python `str.strip()` on the character list. -/
def trimChars (cs : List Char) : List Char :=
  (((cs.dropWhile (fun c => c.isWhitespace)).reverse.dropWhile
      (fun c => c.isWhitespace)).reverse)

/-- Python `int(s)` on the order-number string, modelled for the
non-negative decimal strings the extractors produce: surrounding whitespace
is ignored and anything non-numeric raises. -/
def parseOrderNumber (s : String) : Option Nat :=
  if digitsNonempty (trimChars s.data) then Option.some (digitsVal (trimChars s.data))
  else Option.none

/-- One `ORDER_INQUIRY` turn (backend/app/api/chat.py): the turn's email is
the classifier extraction with the request's own email as fallback
(`extracted_info.get("customer_email") or chat_message.email`), this merged
email and any extracted number are saved over the pending slots, missing
slots are filled from the saved ones and then from the regex fallback
extractor, a missing slot produces a targeted prompt, a non-numeric order
number produces a corrective message without clearing the saved slots, and
a lookup clears both slots whether it finds the order or not.  The blank
check at the top of the endpoint guarantees `request_email` is a nonempty
`Option.some` on every request that reaches this branch. -/
def order_inquiry_turn (st : OrderSlots)
    (extracted_email request_email extracted_number fallback_email fallback_number :
      Option String)
    (lookup : Nat → String → Option OrderInfo) : OrderOutcome × OrderSlots :=
  let email0 := pyOr extracted_email request_email
  let st1 : OrderSlots :=
    { pending_order_email := pyOr email0 st.pending_order_email,
      pending_order_number := pyOr extracted_number st.pending_order_number }
  let email := pyOr (pyOr email0 st1.pending_order_email) fallback_email
  let number := pyOr (pyOr extracted_number st1.pending_order_number) fallback_number
  match number, email with
  | Option.none, Option.none => (OrderOutcome.promptBoth, st1)
  | Option.none, Option.some _ => (OrderOutcome.promptNumber "please provide your order number", st1)
  | Option.some n, Option.none => (OrderOutcome.promptEmail n, st1)
  | Option.some n, Option.some e =>
    match parseOrderNumber n with
    | Option.none => (OrderOutcome.invalidNumber n, st1)
    | Option.some nInt =>
      match lookup nInt e with
      | Option.none =>
        (OrderOutcome.notFound n e,
         { pending_order_email := Option.none, pending_order_number := Option.none })
      | Option.some o =>
        (OrderOutcome.found o,
         { pending_order_email := Option.none, pending_order_number := Option.none })

/-! Top-level error handling of `chat_endpoint`: the body, including the
blank-email validation, runs inside a `try` whose `except Exception` handler
returns a generic apologetic reply; `fastapi.HTTPException` derives from
`Exception`, so the raised 400 is caught by that handler. -/

/-- A raised Python exception relevant to the endpoint model. -/
inductive PyExc where
  | httpException : Nat → String → PyExc
  | other : String → PyExc
deriving DecidableEq

/-- The reply metadata of the `ChatResponse` the endpoint returns. -/
structure ChatReplyMeta where
  response : String
  intent : String
  confidence : Rat
deriving DecidableEq

/-- What the HTTP client observes: a propagated HTTP error status, or a
normal 200 reply. -/
inductive EndpointResult where
  | httpError : Nat → String → EndpointResult
  | reply : ChatReplyMeta → EndpointResult
deriving DecidableEq

/-- The email validation at the top of the `try` body:
`(chat_message.email or "").strip().lower()` must be nonempty, otherwise
`HTTPException(status_code=400, detail="email is required for chat")` is
raised; a successful validation continues with the rest of the turn,
abstracted as `normalReply`. -/
def chat_endpoint_body (email : Option String) (normalReply : ChatReplyMeta) :
    Except PyExc ChatReplyMeta :=
  let email_val := lowerStr (String.mk (trimChars ((pyOr email (Option.some "")).getD "").data))
  if email_val = "" then
    Except.error (PyExc.httpException 400 "email is required for chat")
  else Except.ok normalReply

/-- The generic reply built by the `except Exception` handler. -/
def generic_error_response : ChatReplyMeta :=
  { response := "Sorry, I\x27m having trouble processing your request right now. Please try again in a moment.",
    intent := "error",
    confidence := 0 }

/-- The endpoint as the client sees it: the catch-all handler turns every
raised exception, the validation `HTTPException` included, into the generic
200 reply. -/
def chat_endpoint_result (email : Option String) (normalReply : ChatReplyMeta) : EndpointResult :=
  match chat_endpoint_body email normalReply with
  | Except.ok r => EndpointResult.reply r
  | Except.error _ => EndpointResult.reply generic_error_response

/-! The intent-classifier contract of
backend/app/services/openai_service.py (`analyze_user_intent_with_context`):
the collaborator call and its JSON parse are modelled as an `Except` input,
and the `except` branch of the source returns the documented fallback. -/

/-- The classifier result shape (the fallback-relevant fields of the
returned dictionary, with `extracted_info` flattened). -/
structure IntentResult where
  intent : String
  confidence : Rat
  keywords : String
  order_number : String
  customer_email : String
  is_followup_question : Bool
  question_type : String
deriving DecidableEq

/-- The fallback dictionary of the `except` branch: `PRODUCT_SEARCH` at
confidence 0.5 with the raw message as keywords. -/
def intent_fallback (message : String) : IntentResult :=
  { intent := "PRODUCT_SEARCH",
    confidence := 1 / 2,
    keywords := message,
    order_number := "",
    customer_email := "",
    is_followup_question := false,
    question_type := "general" }

/-- `analyze_user_intent_with_context`: return the collaborator result when
the call and parse succeed, and the fallback otherwise; no failure
escapes. -/
def analyze_user_intent_with_context (message : String)
    (collaborator : Except String IntentResult) : IntentResult :=
  match collaborator with
  | Except.ok r => r
  | Except.error _ => intent_fallback message

/-! Concrete sample data used by the closed scenario theorems and
witnesses. -/

/-- Sample product A. -/
def pA : ProductD :=
  { shopify_id := "101", title := "Alpha Tee", price := PyVal.vFloat 10, vendor := "Acme" }

/-- Sample product B. -/
def pB : ProductD :=
  { shopify_id := "102", title := "Beta Tee", price := PyVal.vFloat 20, vendor := "Acme" }

/-- Sample product C. -/
def pC : ProductD :=
  { shopify_id := "103", title := "Gamma Tee", price := PyVal.vFloat 30, vendor := "Bolt" }

/-- Sample product D. -/
def pD : ProductD :=
  { shopify_id := "104", title := "Delta Tee", price := PyVal.vFloat 40, vendor := "Bolt" }

/-- Sample product E. -/
def pE : ProductD :=
  { shopify_id := "105", title := "Epsilon Tee", price := PyVal.vFloat 50, vendor := "Crag" }

/-- Sample product F. -/
def pF : ProductD :=
  { shopify_id := "106", title := "Zeta Tee", price := PyVal.vFloat 60, vendor := "Crag" }

/-- The six-product cached result set of the pagination scenario. -/
def sixProducts : List ProductD := [pA, pB, pC, pD, pE, pF]

/-- An empty filter record (the empty Python dict). -/
def noFilters : Filters := { price_max := Option.none, brand := Option.none }

/-- Session state right after page 1 of the query `red shirt` was served
from a six-product filtered result set. -/
def stC1 : SearchSession :=
  { cached_search_query := "red shirt",
    cached_search_results := sixProducts,
    numbered_products := rebuildNumbered (sixProducts.take 5),
    recent_search_products := sixProducts.take 5,
    context_product := Option.some pA,
    last_shown_products := sixProducts.take 5 }

/-- Ranked-search oracle of the pagination scenario. -/
def vecC1 : String → Nat → List ProductD :=
  fun q _ => if q == "popular products" then [pF] else sixProducts

/-- A fresh, empty session state. -/
def stEmpty : SearchSession :=
  { cached_search_query := "",
    cached_search_results := [],
    numbered_products := [],
    recent_search_products := [],
    context_product := Option.none,
    last_shown_products := [] }

/-- Ranked-search oracle returning the six sample products for every
query. -/
def vecSix : String → Nat → List ProductD := fun _ _ => sixProducts

/-- The sample order of the order-inquiry scenario. -/
def ordSample : OrderInfo := { order_number := 1234, email := "a@b.com" }

/-- Order lookup oracle holding exactly the sample order. -/
def dbWithOrder : Nat → String → Option OrderInfo :=
  fun n e => if n == 1234 && e == "a@b.com" then Option.some ordSample else Option.none

/-- Order lookup oracle holding no orders. -/
def dbEmpty : Nat → String → Option OrderInfo := fun _ _ => Option.none

/-! Helper lemmas shared by the claim theorems. -/

theorem filter_and {α : Type} (p q : α → Bool) (l : List α) :
    (l.filter q).filter p = l.filter (fun a => q a && p a) := by
  induction l with
  | nil => rfl
  | cons a t ih =>
    cases hq : q a <;> cases hp : p a <;>
      simp [List.filter_cons, hq, hp, ih]

theorem filter_idem {α : Type} (p : α → Bool) (l : List α) :
    (l.filter p).filter p = l.filter p := by
  rw [filter_and]
  simp [Bool.and_self]

theorem trimHistory_length (l : List HistEntry) :
    (trimHistory l).length = min l.length 10 := by
  unfold trimHistory
  split <;> simp <;> omega

theorem trimHistory_is_suffix_drop (l : List HistEntry) :
    ∃ k, trimHistory l = l.drop k := by
  unfold trimHistory
  split
  · exact ⟨l.length - 10, rfl⟩
  · exact ⟨0, by simp⟩

theorem numberFrom_map_fst (l : List ProductD) :
    ∀ k, (numberFrom k l).map Prod.fst = List.range' k l.length := by
  induction l with
  | nil => intro k; rfl
  | cons p ps ih =>
    intro k
    simp [numberFrom, List.range'_succ, ih]

theorem numberFrom_lookup (l : List ProductD) :
    ∀ k i, i < l.length → lookupNumbered (numberFrom k l) (k + i) = l.get? i := by
  induction l with
  | nil => intro k i h; simp at h
  | cons p ps ih =>
    intro k i h
    cases i with
    | zero => simp [numberFrom, lookupNumbered, List.find?]
    | succ j =>
      rw [show k + (j + 1) = (k + 1) + j by omega]
      have hk : (k == k + 1 + j) = false := by
        simp only [beq_eq_false_iff_ne, ne_eq]
        omega
      have hrec := ih (k + 1) j (by simpa using h)
      simpa [numberFrom, lookupNumbered, List.find?, hk] using hrec

theorem attemptPosition_inRange (pos : Option Nat) (recent : List ProductD) (t : ProductD)
    (h : attemptPosition pos recent = Option.some t) :
    ∃ n, 1 ≤ n ∧ n ≤ recent.length ∧ recent.get? (n - 1) = Option.some t := by
  cases pos with
  | none => simp [attemptPosition] at h
  | some n =>
    simp only [attemptPosition] at h
    split at h
    · next hc =>
      simp only [Bool.and_eq_true, bne_iff_ne, ne_eq, decide_eq_true_eq] at hc
      obtain ⟨⟨hn, -⟩, hle⟩ := hc
      exact ⟨n, by omega, hle, h⟩
    · exact absurd h (by simp)

theorem findPositionalTarget_inRange (msg : String) (recent : List ProductD) (t : ProductD)
    (h : findPositionalTarget msg recent = Option.some t) :
    ∃ n, 1 ≤ n ∧ n ≤ recent.length ∧ recent.get? (n - 1) = Option.some t := by
  simp only [findPositionalTarget] at h
  split at h
  · next heq => exact attemptPosition_inRange _ _ _ (heq.trans h)
  · split at h
    · next heq => exact attemptPosition_inRange _ _ _ (heq.trans h)
    · exact attemptPosition_inRange _ _ _ h

theorem product_search_turn_main_state (st : SearchSession)
    (vector : String → Nat → List ProductD) (q : String) (page : Nat)
    (mr : Option Nat) (f : Filters)
    (hpag : isPaginationRequest st q page = false)
    (hres : (vector q (searchLimit mr)).isEmpty = false) :
    (product_search_turn st vector q page mr f).2.numbered_products =
      rebuildNumbered (((apply_product_filters (vector q (searchLimit mr)) f).drop
        (((if page = 0 then 1 else page) - 1) * 5)).take 5)
    ∧ (product_search_turn st vector q page mr f).2.recent_search_products =
      ((apply_product_filters (vector q (searchLimit mr)) f).drop
        (((if page = 0 then 1 else page) - 1) * 5)).take 5 := by
  simp [product_search_turn, hpag, hres]

/-! Claim theorems. -/

/-- C1: a same-query page-2 request on a session whose cache holds six
results for `red shirt` does not serve the cached page: the processing block
of `chat_endpoint` is guarded by `not is_pagination_request and
product_results`, so the pagination turn falls into the no-results branch,
returning no exact matches and the apologetic no-results message, issuing a
fresh `popular products` ranked-search call, and leaving the session state
untouched — although the request is recognised as a pagination request and
a nonempty cached second page exists. -/
theorem c1_pagination_request_falls_into_no_results :
    isPaginationRequest stC1 "red shirt" 2 = true
    ∧ (stC1.cached_search_results.drop 5).take 5 ≠ []
    ∧ (product_search_turn stC1 vecC1 "red shirt" 2 Option.none noFilters).1.exact_matches = []
    ∧ (product_search_turn stC1 vecC1 "red shirt" 2 Option.none noFilters).1.response_text =
        "I couldn\x27t find any products matching your search. Let me show you some other products you might like:"
    ∧ (product_search_turn stC1 vecC1 "red shirt" 2 Option.none noFilters).1.search_calls =
        [("popular products", 10)]
    ∧ (product_search_turn stC1 vecC1 "red shirt" 2 Option.none noFilters).2 = stC1 := by
  decide

/-- C3 counterexample: the claim maps `₹1,234.50` to `1234.50`, but
`safe_float_convert` cleans it to `1,234.50`, replaces the comma with a dot
yielding the unconvertible `1.234.50`, and coerces to `0.0`. -/
theorem c3_price_coercion_counterexample :
    safe_float_convert (PyVal.vStr "₹1,234.50") ≠ 2469 / 2
    ∧ safe_float_convert (PyVal.vStr "₹1,234.50") = 0 := by
  have h : safe_float_convert (PyVal.vStr "₹1,234.50") = 0 := by decide
  refine ⟨?_, h⟩
  rw [h]
  norm_num

/-- C3 amended: the price coercion maps `₹1,234.50` to `0.0` (the comma is
treated as a decimal separator, leaving a string with two dots that fails
conversion), maps `None` to `0.0` and maps `abc` to `0.0`; unconvertible
values coerce to `0` rather than raising. -/
theorem c3_price_coercion_amended :
    safe_float_convert (PyVal.vStr "₹1,234.50") = 0
    ∧ safe_float_convert PyVal.vNone = 0
    ∧ safe_float_convert (PyVal.vStr "abc") = 0 := by
  decide

/-- C4 counterexample: after six processed turns starting from an empty
session the conversation history holds eleven entries, because the
truncation to ten runs only after the user append, while the assistant
append that closes the turn is not followed by a truncation. -/
theorem c4_history_bound_counterexample :
    (runTurns 6).length = 11 ∧ ¬(runTurns 6).length ≤ 10 := by
  decide

/-- C4 amended: after any number of processed turns the conversation
history holds at most eleven entries (at most ten right after the
user-append truncation, plus the assistant entry appended afterwards), and
eviction always drops the oldest entries first (the truncation keeps a
suffix). -/
theorem c4_history_bound_amended :
    (∀ (h : List HistEntry) (u b : HistEntry), (historyAfterTurn h u b).length ≤ 11)
    ∧ (∀ n, (runTurns n).length ≤ 11)
    ∧ (∀ l : List HistEntry, ∃ k, trimHistory l = l.drop k) := by
  refine ⟨?_, ?_, trimHistory_is_suffix_drop⟩
  · intro h u b
    simp [historyAfterTurn, trimHistory_length]
  · intro n
    cases n with
    | zero => simp [runTurns]
    | succ m =>
      show (historyAfterTurn (runTurns m) userEntry assistantEntry).length ≤ 11
      simp [historyAfterTurn, trimHistory_length]

/-- C6 counterexample: because the turn's email falls back to the request's
validated non-blank email, a turn that provides only an order number runs
the lookup immediately with the request email instead of prompting for the
email (so nothing of turn 1 survives to a turn-2 lookup: the lookup clears
both slots), and a turn with neither extracted slot prompts for the order
number only, never for both. -/
theorem c6_order_slot_counterexample :
    order_inquiry_turn
        { pending_order_email := Option.none, pending_order_number := Option.none }
        Option.none (Option.some "u@e.com") (Option.some "1234") Option.none Option.none
        dbEmpty =
      (OrderOutcome.notFound "1234" "u@e.com",
       { pending_order_email := Option.none, pending_order_number := Option.none })
    ∧ (order_inquiry_turn
        { pending_order_email := Option.none, pending_order_number := Option.none }
        Option.none (Option.some "u@e.com") Option.none Option.none Option.none
        dbEmpty).1 =
      OrderOutcome.promptNumber "please provide your order number" := by
  decide

/-- C6 amended: the email slot is always backed by the request's validated
non-blank email, so the email-prompt and both-prompt states are
unreachable: an order number provided in a turn is used immediately with
the request email for the lookup; a turn with no order number available
prompts for the order number only; a non-numeric saved order number is
merged into later turns without being cleared; a lookup that finds no
matching order clears both pending slots, and a successful lookup also
clears both slots. -/
theorem c6_order_slot_state_machine_amended :
    (∀ (st : OrderSlots) (req : String) (db : Nat → String → Option OrderInfo),
      order_inquiry_turn st Option.none (Option.some req) (Option.some "1234")
          Option.none Option.none db =
        ((match db 1234 req with
          | Option.some o => OrderOutcome.found o
          | Option.none => OrderOutcome.notFound "1234" req),
         { pending_order_email := Option.none, pending_order_number := Option.none }))
    ∧ (∀ (pe : Option String) (req : String) (db : Nat → String → Option OrderInfo),
        (order_inquiry_turn { pending_order_email := pe, pending_order_number := Option.none }
            Option.none (Option.some req) Option.none Option.none Option.none db).1 =
          OrderOutcome.promptNumber "please provide your order number")
    ∧ order_inquiry_turn
        { pending_order_email := Option.none, pending_order_number := Option.none }
        Option.none (Option.some "a@b.com") (Option.some "1234") Option.none Option.none
        dbWithOrder =
      (OrderOutcome.found ordSample,
       { pending_order_email := Option.none, pending_order_number := Option.none })
    ∧ order_inquiry_turn
        { pending_order_email := Option.none, pending_order_number := Option.none }
        Option.none (Option.some "u@e.com") (Option.some "12ab") Option.none Option.none
        dbEmpty =
      (OrderOutcome.invalidNumber "12ab",
       { pending_order_email := Option.some "u@e.com",
         pending_order_number := Option.some "12ab" })
    ∧ order_inquiry_turn
        { pending_order_email := Option.some "u@e.com",
          pending_order_number := Option.some "12ab" }
        Option.none (Option.some "u@e.com") Option.none Option.none Option.none dbEmpty =
      (OrderOutcome.invalidNumber "12ab",
       { pending_order_email := Option.some "u@e.com",
         pending_order_number := Option.some "12ab" }) := by
  refine ⟨?_, ?_, by decide, by decide, by decide⟩
  · intro st req db
    simp only [order_inquiry_turn, pyOr]
    rw [show parseOrderNumber "1234" = Option.some 1234 from by decide]
    cases h : db 1234 req <;> simp [h]
  · intro pe req db
    rfl

/-- C7: a missing or blank email does raise `HTTPException(400)` inside the
endpoint body, but the catch-all `except Exception` handler of
`chat_endpoint` converts it into the generic 200 apologetic reply, so the
client never observes an HTTP client error — for every email and every
normal reply the observable result is a 200 reply. -/
theorem c7_blank_email_swallowed_400 :
    (∀ r, chat_endpoint_body (Option.some "") r =
        Except.error (PyExc.httpException 400 "email is required for chat"))
    ∧ (∀ r, chat_endpoint_body Option.none r =
        Except.error (PyExc.httpException 400 "email is required for chat"))
    ∧ (∀ r, chat_endpoint_result (Option.some "") r = EndpointResult.reply generic_error_response)
    ∧ (∀ r, chat_endpoint_result Option.none r = EndpointResult.reply generic_error_response)
    ∧ (∀ email r, ∃ m, chat_endpoint_result email r = EndpointResult.reply m) := by
  refine ⟨fun r => rfl, fun r => rfl, fun r => rfl, fun r => rfl, ?_⟩
  intro email r
  unfold chat_endpoint_result
  cases chat_endpoint_body email r with
  | ok x => exact ⟨x, rfl⟩
  | error e => exact ⟨generic_error_response, rfl⟩

/-- C8: when the intent-classifier collaborator fails, the analysis result
is the fallback `PRODUCT_SEARCH` at confidence 0.5 with the raw message as
keywords, and the function returns this normal result instead of
propagating the failure. -/
theorem c8_intent_classifier_fallback (message err : String) :
    (analyze_user_intent_with_context message (Except.error err)).intent = "PRODUCT_SEARCH"
    ∧ (analyze_user_intent_with_context message (Except.error err)).confidence = 1 / 2
    ∧ (analyze_user_intent_with_context message (Except.error err)).keywords = message
    ∧ analyze_user_intent_with_context message (Except.error err) = intent_fallback message :=
  ⟨rfl, rfl, rfl, rfl⟩

/-- C9: `apply_product_filters` is idempotent — applying the same filter
record twice yields exactly the list obtained by applying it once, for
every product list and every filter record. -/
theorem c9_filter_idempotent (ps : List ProductD) (f : Filters) :
    apply_product_filters (apply_product_filters ps f) f = apply_product_filters ps f := by
  obtain ⟨pm, bf⟩ := f
  cases pm with
  | none =>
    cases bf with
    | none => rfl
    | some b => simp [apply_product_filters, filter_idem]
  | some m =>
    cases bf with
    | none => simp [apply_product_filters, filter_idem]
    | some b =>
      simp only [apply_product_filters, Option.isNone_some, Bool.false_eq_true, false_and,
        if_false]
      simp only [filter_and]
      congr 1
      funext a
      cases hp : decide (safe_float_convert a.price ≤ m) <;>
        cases hb : strContains (lowerStr a.vendor) (lowerStr b) <;> simp [hp, hb]

/-- C2: on every search turn that takes the result-processing path (not a
pagination request and a nonempty ranked-search result), the rebuilt
`numbered_products` mapping of the resulting session has keys exactly
`1..len(recent_search_products)` in order, and the entry at key `i+1` is
`recent_search_products[i]`. -/
theorem c2_numbered_products_invariant (st : SearchSession)
    (vector : String → Nat → List ProductD) (q : String) (page : Nat)
    (mr : Option Nat) (f : Filters)
    (hpag : isPaginationRequest st q page = false)
    (hres : (vector q (searchLimit mr)).isEmpty = false) :
    ((product_search_turn st vector q page mr f).2.numbered_products.map Prod.fst =
      List.range' 1 (product_search_turn st vector q page mr f).2.recent_search_products.length)
    ∧ ∀ i, i < (product_search_turn st vector q page mr f).2.recent_search_products.length →
        lookupNumbered (product_search_turn st vector q page mr f).2.numbered_products (1 + i) =
          (product_search_turn st vector q page mr f).2.recent_search_products.get? i := by
  obtain ⟨h1, h2⟩ := product_search_turn_main_state st vector q page mr f hpag hres
  rw [h1, h2]
  constructor
  · exact numberFrom_map_fst _ 1
  · intro i hi
    exact numberFrom_lookup _ 1 i hi

/-- C2 witness: a concrete fresh search over the six sample products. -/
theorem c2_numbered_products_invariant_witness :
    ((product_search_turn stEmpty vecSix "shirt" 1 Option.none noFilters).2.numbered_products.map
        Prod.fst =
      List.range' 1
        (product_search_turn stEmpty vecSix "shirt" 1 Option.none
            noFilters).2.recent_search_products.length)
    ∧ lookupNumbered
        (product_search_turn stEmpty vecSix "shirt" 1 Option.none noFilters).2.numbered_products
        (1 + 1) =
      (product_search_turn stEmpty vecSix "shirt" 1 Option.none
          noFilters).2.recent_search_products.get? 1 :=
  ⟨(c2_numbered_products_invariant stEmpty vecSix "shirt" 1 Option.none noFilters
      (by decide) (by decide)).1,
   (c2_numbered_products_invariant stEmpty vecSix "shirt" 1 Option.none noFilters
      (by decide) (by decide)).2 1 (by decide)⟩

/-- C5: with recent results `[A, B, C]`, the message `the second product`
resolves the target to `B` (1-indexed, regardless of any selected or
context product, since the positional branch has priority); `product 5`
with only three results resolves no positional target (and with no selected
or context product no target at all); and whenever the positional resolver
returns a target it is the in-range 1-indexed entry of the recent results,
never an out-of-range snapshot. -/
theorem c5_ordinal_resolution (A B C : ProductD) (sel ctx : Option ProductD) :
    (detect_product_reference "the second product" ctx [A, B, C] sel).target_product =
      Option.some B
    ∧ (detect_product_reference "product 5" Option.none [A, B, C] Option.none).target_product =
      Option.none
    ∧ ∀ msg recent t, findPositionalTarget msg recent = Option.some t →
        ∃ n, 1 ≤ n ∧ n ≤ recent.length ∧ recent.get? (n - 1) = Option.some t := by
  exact ⟨rfl, rfl, findPositionalTarget_inRange⟩

/-- C5 witness: the sample products at the concrete messages, the safety
conjunct applied at the successful resolution of `the second product`. -/
theorem c5_ordinal_resolution_witness :
    (detect_product_reference "the second product" Option.none [pA, pB, pC]
        Option.none).target_product = Option.some pB
    ∧ (detect_product_reference "product 5" Option.none [pA, pB, pC]
        Option.none).target_product = Option.none
    ∧ ∃ n, 1 ≤ n ∧ n ≤ ([pA, pB, pC] : List ProductD).length ∧
        ([pA, pB, pC] : List ProductD).get? (n - 1) = Option.some pB :=
  ⟨(c5_ordinal_resolution pA pB pC Option.none Option.none).1,
   (c5_ordinal_resolution pA pB pC Option.none Option.none).2.1,
   (c5_ordinal_resolution pA pB pC Option.none Option.none).2.2
     "the second product" [pA, pB, pC] pB (by decide)⟩

/-- C10: when no positional pattern resolves and a selected product is set,
the resolver targets the selected product with `has_product_reference`
true, for every message and context product — the title-word-overlap and
`for <title>` checks of the context branch are never applied to the
selected product. -/
theorem c10_selected_product_priority (msg : String) (recent : List ProductD)
    (ctx : Option ProductD) (s : ProductD)
    (h : findPositionalTarget msg recent = Option.none) :
    detect_product_reference msg ctx recent (Option.some s) =
      { target_product := Option.some s, has_product_reference := true } := by
  simp only [detect_product_reference, h]

/-- C10 witness: a message sharing no word with either product still
targets the selected product. -/
theorem c10_selected_product_priority_witness :
    detect_product_reference "hello" (Option.some pA) [] (Option.some pB) =
      { target_product := Option.some pB, has_product_reference := true } :=
  c10_selected_product_priority "hello" [] (Option.some pA) pB (by decide)

end EcomChat
